import Mathlib

/-!
Verification of the 3speak upload service core pipeline.

Shallow embedding of the upload-finalization / job-dispatch pipeline:
* `uploadFile` / `getGatewayUrl` embed `IPFSService.uploadFile` and
  `IPFSService.getGatewayUrl` (src/services, IPFS part of cleanup.js bundle);
  the two network attempts are passed in as oracle outcomes and the number of
  node invocations is recorded so fail-over behaviour can be stated.
* `tusCallback` embeds the `/tus-callback` route handler (src/routes/upload.js,
  lines 275-423), the shared completion processor: idempotency guard, storage
  phase, pre-dispatch job existence check, dispatch, commit, temp-file delete.
* `createEncodingJob` embeds `JobService.createEncodingJob` (src/services/job.js).
* `findEligibleVideos`, `cleanupVideo`, `performCleanup`, `forceCleanupVideo`
  embed the corresponding `CleanupService` methods (src/services/cleanup.js).
* `generatePermlink` embeds the permlink generator of upload.js together with
  the schema bounds of models/Video.js.
* `TempUpload` with `isReadyToFinalize` / `isExpired` / `markFinalized` embeds
  the temp-upload schema statics and methods; the finalize route handler itself
  is not in the source tree and `finalizeUpload` is modelled from the spec.

Mongo collections are embedded as lists of records; a `save` of a mutated
document is replacement by `_id` (`saveVideoById`); the temp-file directory is
the list `files`, `fs.unlinkSync` is `List.erase`.  Video metadata fields that
no modelled operation reads or writes (title, description, tags, thumbnail,
beneficiaries, ...) are projected away.
-/

namespace ThreeSpeak

/-- Environment configuration of `IPFSService` (its constructor reads these
from env vars with the defaults shown in `svc0` below). -/
structure IPFSService where
  supernodeUrl : String
  fallbackUrl : String
  fallbackGateway : String
  primaryGateway : String
deriving Repr, DecidableEq

/-- Return value of `IPFSService.uploadFile`:
`{hash, fallbackMode, gatewayUrl}`. -/
structure UploadResult where
  hash : String
  fallbackMode : Bool
  gatewayUrl : String
deriving Repr, DecidableEq

/-- `uploadFile` outcome together with a trace of how many times each IPFS
node was invoked, so "the secondary is attempted exactly once" is statable. -/
structure UploadOutcome where
  result : Except String UploadResult
  primaryAttempts : Nat
  fallbackAttempts : Nat

/-- `IPFSService.uploadFile(filePath)`.  `fileExists` is the `fs.existsSync`
check; `primaryRes` / `fallbackRes` are the outcomes of the supernode and
local-daemon `add?pin=true` requests (hash on success, message on failure:
timeout, transport error, or missing `Hash` field all surface here as the
thrown error's message). -/
def uploadFile (svc : IPFSService) (fileExists : Bool) (filePath : String)
    (primaryRes fallbackRes : Except String String) : UploadOutcome :=
  if !fileExists then
    { result := .error ("File not found: " ++ filePath),
      primaryAttempts := 0, fallbackAttempts := 0 }
  else
    match primaryRes with
    | .ok h =>
        { result := .ok { hash := h, fallbackMode := false,
                          gatewayUrl := svc.primaryGateway ++ "/ipfs/" ++ h },
          primaryAttempts := 1, fallbackAttempts := 0 }
    | .error supernodeError =>
        match fallbackRes with
        | .ok h =>
            { result := .ok { hash := h, fallbackMode := true,
                              gatewayUrl := svc.fallbackGateway ++ "/ipfs/" ++ h },
              primaryAttempts := 1, fallbackAttempts := 1 }
        | .error fallbackError =>
            { result := .error ("Both uploads failed. Supernode: " ++ supernodeError
                                ++ ", Fallback: " ++ fallbackError),
              primaryAttempts := 1, fallbackAttempts := 1 }

/-- `IPFSService.getGatewayUrl(cid, fallbackMode)`. -/
def getGatewayUrl (svc : IPFSService) (cid : String) (fallbackMode : Bool) : String :=
  if fallbackMode then svc.fallbackGateway ++ "/ipfs/" ++ cid
  else svc.primaryGateway ++ "/ipfs/" ++ cid

/-- A `videos`-collection document (models/Video.js), restricted to the fields
the modelled operations read or write.  `vid` is Mongo's `_id`; `Option` fields
are nullable / possibly-unset string fields. -/
structure Video where
  vid : String
  owner : String
  permlink : String
  filename : Option String
  job_id : Option String
  status : String
  local_filename : Option String
  fallback_mode : Bool
  cleanup_eligible : Bool
  size : Nat
  upload_service_id : String
  created : Nat
deriving Repr, DecidableEq

/-- An encoder-gateway `jobs` document as built by
`JobService.createEncodingJob`. -/
structure EncodingJob where
  id : String
  status : String
  video_owner : String
  video_permlink : String
  storage_key : String
  input_uri : String
  input_size : Nat
deriving Repr, DecidableEq

/-- `JobService.createEncodingJob(video, ipfsCid, fileSize, gatewayUrl)`;
`jobId` lifts the internally generated `uuidv4()`.  (`ipfsCid` is only logged
by the source, not stored.) -/
def createEncodingJob (video : Video) (jobId : String) (ipfsCid : String)
    (fileSize : Nat) (gatewayUrl : String) : EncodingJob :=
  { id := jobId,
    status := "queued",
    video_owner := video.owner,
    video_permlink := video.permlink,
    storage_key := video.owner ++ "/" ++ video.permlink ++ "/video",
    input_uri := gatewayUrl,
    input_size := fileSize }

/-- `Job.findOne({'metadata.video_owner': owner, 'metadata.video_permlink':
permlink})` over the jobs collection. -/
def findJobFor (jobs : List EncodingJob) (owner permlink : String) : Option EncodingJob :=
  jobs.find? (fun j => j.video_owner == owner && j.video_permlink == permlink)

/-- `Video.findById(video_id)`. -/
def findVideoById (videos : List Video) (video_id : String) : Option Video :=
  videos.find? (fun v => v.vid == video_id)

/-- `video.save()` of a mutated document: replace by `_id`. -/
def saveVideoById (videos : List Video) (v : Video) : List Video :=
  videos.map (fun w => if w.vid == v.vid then v else w)

/-- JS `s.startsWith('ipfs://')`: the first 7 characters are `ipfs://`.
(Embedded over the character list so that it evaluates by reduction.) -/
def startsWithIpfs (s : String) : Bool :=
  s.toList.take 7 == "ipfs://".toList

/-- JS `s.replace('ipfs://', '')` under the `startsWith` guard: the characters
after the 7-character prefix. -/
def stripIpfs (s : String) : String :=
  String.mk (s.toList.drop 7)

/-- The tus-callback idempotency guard (upload.js line 321):
`video.filename && video.filename.startsWith('ipfs://') && video.job_id`. -/
def alreadyProcessed (video : Video) : Bool :=
  (match video.filename with
   | some f => startsWithIpfs f
   | none => false) && video.job_id.isSome

/-- Database and temp-file-directory state seen by the tus-callback handler. -/
structure TusState where
  videos : List Video
  jobs : List EncodingJob
  files : List String
deriving Repr, DecidableEq

/-- The handler's possible HTTP responses (404 / 500 / the three success
bodies). -/
inductive TusResponse where
  | videoNotFound
  | fileNotFound
  | alreadyProcessed
  | jobExists (jobId : String)
  | ok
  | serverError (msg : String)
deriving Repr, DecidableEq

/-- External nondeterminism consumed by one handler run: outcomes of the two
IPFS node requests and the fresh `uuidv4()` job id. -/
structure TusEnv where
  primaryRes : Except String String
  fallbackRes : Except String String
  freshJobId : String

/-- The `/tus-callback` route handler (upload.js lines 275-423), from the point
where `video_id`, `owner`, `permlink` and `Storage.Path` have been extracted:
find the video; check the file exists; idempotency short-circuit; IPFS upload
(a failure is thrown and caught by the outer handler as a 500 with the error
message, touching nothing); last-second job existence check; either attach the
existing job (fields set only if unset) or create a job and commit the full
update; delete the temp file on every success path. -/
def tusCallback (svc : IPFSService) (env : TusEnv) (st : TusState)
    (video_id owner permlink filePath : String) : TusResponse × TusState :=
  match findVideoById st.videos video_id with
  | none => (.videoNotFound, st)
  | some video =>
    if !(st.files.contains filePath) then (.fileNotFound, st)
    else if alreadyProcessed video then
      (.alreadyProcessed, { st with files := st.files.erase filePath })
    else
      match (uploadFile svc (st.files.contains filePath) filePath
              env.primaryRes env.fallbackRes).result with
      | .error e => (.serverError e, st)
      | .ok uploadResult =>
        match findJobFor st.jobs owner permlink with
        | some existingJob =>
          let video' := { video with
            job_id := if video.job_id.isNone then some existingJob.id else video.job_id,
            filename := if video.filename.isNone
                        then some ("ipfs://" ++ uploadResult.hash) else video.filename }
          (.jobExists existingJob.id,
            { st with videos := saveVideoById st.videos video',
                      files := st.files.erase filePath })
        | none =>
          let job := createEncodingJob video env.freshJobId uploadResult.hash
                       video.size uploadResult.gatewayUrl
          let video' := { video with
            filename := some ("ipfs://" ++ uploadResult.hash),
            status := "encoding_ipfs",
            job_id := some env.freshJobId,
            local_filename := none,
            fallback_mode := uploadResult.fallbackMode,
            cleanup_eligible := false }
          (.ok, { videos := saveVideoById st.videos video',
                  jobs := st.jobs ++ [job],
                  files := st.files.erase filePath })

/-- Result of `CleanupService.cleanupVideo`: whether it reported success, the
saved document if any (`video.save()` happens only on unpin success), the hash
it unpinned, the error message otherwise, and whether the unpin storage call
was made at all. -/
structure CleanupResult where
  success : Bool
  updated : Option Video
  ipfsHash : Option String
  error : Option String
  unpinCalled : Bool
deriving Repr, DecidableEq

/-- `CleanupService.cleanupVideo(video)`; `unpinOk` is the outcome of
`ipfsService.unpinFromFallback`.  `filename.replace('ipfs://','')` equals
`drop 7` under the `startsWith` guard. -/
def cleanupVideo (video : Video) (unpinOk : Bool) : CleanupResult :=
  match video.filename with
  | none =>
      { success := false, updated := none, ipfsHash := none,
        error := some "Invalid filename format for cleanup", unpinCalled := false }
  | some f =>
      if !(startsWithIpfs f) then
        { success := false, updated := none, ipfsHash := none,
          error := some "Invalid filename format for cleanup", unpinCalled := false }
      else
        let ipfsHash := stripIpfs f
        if unpinOk then
          { success := true,
            updated := some { video with cleanup_eligible := true },
            ipfsHash := some ipfsHash, error := none, unpinCalled := true }
        else
          { success := false, updated := none, ipfsHash := none,
            error := some ("Failed to unpin " ++ ipfsHash ++ " from local IPFS"),
            unpinCalled := true }

/-- `CleanupService.findEligibleVideos`: the Mongo query
`{upload_service_id, fallback_mode: true, status: 'published',
created: {lt: cutoff}, cleanup_eligible: {ne: true}}`.  `cutoff` is
now minus the retention window. -/
def findEligibleVideos (serviceId : String) (cutoff : Nat)
    (videos : List Video) : List Video :=
  videos.filter (fun v =>
    v.upload_service_id == serviceId && v.fallback_mode && v.status == "published"
      && decide (v.created < cutoff) && !v.cleanup_eligible)

/-- Accumulated state of the `performCleanup` loop: current store, the
cleaned/error counters, and the trace of videos on which the unpin storage
call was made. -/
structure CleanupSummary where
  videos : List Video
  cleaned : Nat
  errors : Nat
  unpinCalls : List Video
deriving Repr, DecidableEq

/-- One iteration of the `performCleanup` per-video loop (failures are
recorded and skipped, never abort the batch). -/
def cleanupStep (unpinOk : Video → Bool) (acc : CleanupSummary) (v : Video) :
    CleanupSummary :=
  let r := cleanupVideo v (unpinOk v)
  { videos := match r.updated with
      | some v' => saveVideoById acc.videos v'
      | none => acc.videos,
    cleaned := acc.cleaned + (if r.success then 1 else 0),
    errors := acc.errors + (if r.success then 0 else 1),
    unpinCalls := acc.unpinCalls ++ (if r.unpinCalled then [v] else []) }

/-- `CleanupService.performCleanup`: run `cleanupVideo` over every video
selected by `findEligibleVideos`. -/
def performCleanup (serviceId : String) (cutoff : Nat) (videos : List Video)
    (unpinOk : Video → Bool) : CleanupSummary :=
  (findEligibleVideos serviceId cutoff videos).foldl (cleanupStep unpinOk)
    { videos := videos, cleaned := 0, errors := 0, unpinCalls := [] }

/-- `CleanupService.forceCleanupVideo(videoId)`: requires the video to exist,
to belong to this service, and to be a fallback upload (it does NOT require
`status == 'published'`), then runs `cleanupVideo`. -/
def forceCleanupVideo (serviceId : String) (videos : List Video)
    (videoId : String) (unpinOk : Bool) : Except String CleanupResult :=
  match findVideoById videos videoId with
  | none => .error "Video not found"
  | some video =>
    if video.upload_service_id != serviceId then
      .error "Video not created by this service"
    else if !video.fallback_mode then
      .error "Video not using fallback storage"
    else
      .ok (cleanupVideo video unpinOk)

/-- The data-model invariant of spec section 3: an eviction-eligible entry has
fallback origin and is published. -/
def EvictionInv (videos : List Video) : Prop :=
  ∀ v ∈ videos, v.cleanup_eligible = true →
    v.fallback_mode = true ∧ v.status = "published"

/-- `generatePermlink` (upload.js line 124):
`Math.random().toString(36).substring(2, 10).toLowerCase()`.
For `r` in `[0,1)`, `r.toString(36)` renders as `"0."` followed by the base-36
digits of the fractional part with trailing zeros trimmed, so
`substring(2, 10)` is the first at-most-8 of those digits; we embed over that
digit list.  E.g. `(0.5).toString(36) = "0.i"` gives digit list `['i']`. -/
def generatePermlink (fracDigits : List Char) : String :=
  String.mk ((fracDigits.take 8).map Char.toLower)

/-- The schema-level acceptance test for inserting a video: the `permlink`
path has `minlength: 8, maxlength: 8` and `unique: true`
(models/Video.js lines 18-25), so a save is rejected unless the permlink has
exactly 8 characters and no stored video already uses it. -/
def videoSchemaAccepts (videos : List Video) (v : Video) : Bool :=
  v.permlink.length == 8 && !(videos.any (fun w => w.permlink == v.permlink))

/-- A `temp_uploads` document (TempUpload schema, upload-first flow),
restricted to the modelled fields.  Dates are Nat timestamps. -/
structure TempUpload where
  upload_id : String
  owner : String
  originalFilename : String
  size : Nat
  duration : Nat
  tus_completed : Bool
  tus_file_path : Option String
  video_id : Option String
  finalized : Bool
  created : Nat
  expires : Nat
deriving Repr, DecidableEq

/-- `tempUploadSchema.methods.isReadyToFinalize`:
`this.tus_completed && this.tus_file_path && !this.finalized`. -/
def TempUpload.isReadyToFinalize (u : TempUpload) : Bool :=
  u.tus_completed && u.tus_file_path.isSome && !u.finalized

/-- `tempUploadSchema.methods.isExpired`: `this.expires < new Date()`. -/
def TempUpload.isExpired (u : TempUpload) (now : Nat) : Bool :=
  decide (u.expires < now)

/-- `TempUpload.findOne({upload_id})`. -/
def findTempUpload (temps : List TempUpload) (uploadId : String) : Option TempUpload :=
  temps.find? (fun u => u.upload_id == uploadId)

/-- The update half of `tempUploadSchema.statics.markFinalized`
(`findOneAndUpdate({upload_id}, {finalized: true, video_id})`): update the
first matching document. -/
def setFinalized (temps : List TempUpload) (uploadId videoId : String) :
    List TempUpload :=
  match temps with
  | [] => []
  | u :: rest =>
    if u.upload_id == uploadId then
      { u with finalized := true, video_id := some videoId } :: rest
    else
      u :: setFinalized rest uploadId videoId

/-- `tempUploadSchema.statics.markFinalized(upload_id, video_id)`: throws when
no document matches, otherwise updates it. -/
def markFinalized (temps : List TempUpload) (uploadId videoId : String) :
    Except String (List TempUpload) :=
  match findTempUpload temps uploadId with
  | none => .error ("Temporary upload not found: " ++ uploadId)
  | some _ => .ok (setFinalized temps uploadId videoId)

/-- Finalizer error taxonomy of spec section 7. -/
inductive FinalizeError where
  | notFound
  | uploadNotReady
  | alreadyFinalized
deriving Repr, DecidableEq

/-- The stores the Finalizer touches. -/
structure FinalizeState where
  temps : List TempUpload
  videos : List Video
deriving Repr, DecidableEq

/-- The Entry created by Finalizer step 3: state `created` (source status
string `uploaded`), carrying the PendingTransfer's stored local file path. -/
def entryFromTemp (now : Nat) (newVideoId newPermlink : String)
    (u : TempUpload) (p : String) : Video :=
  { vid := newVideoId, owner := u.owner, permlink := newPermlink,
    filename := none, job_id := none, status := "uploaded",
    local_filename := some p, fallback_mode := false, cleanup_eligible := false,
    size := u.size, upload_service_id := "simplified-upload-service",
    created := now }

/-- Modelled from the spec: the `/api/upload/finalize` route handler is not in
the source tree (only the TempUpload schema statics and methods it uses are,
in the auth.js bundle); this follows spec section 4.2 steps 1-4 word for word:
load by token (`NotFound` if absent or expired), require `transferComplete`
(`UploadNotReady` otherwise, also when no file path was recorded, matching the
source's `isReadyToFinalize`), require not yet finalized (`AlreadyFinalized`
otherwise), then create the Entry and mark the transfer finalized via the
source's `markFinalized` update.  The synchronous Completion Processor
invocation of step 5 is `tusCallback`, modelled separately; it creates no
Entry.  Failure paths return the state unchanged. -/
def finalizeUpload (now : Nat) (newVideoId newPermlink : String)
    (st : FinalizeState) (token : String) :
    FinalizeState × Except FinalizeError String :=
  match findTempUpload st.temps token with
  | none => (st, .error .notFound)
  | some u =>
    if u.isExpired now then (st, .error .notFound)
    else if !u.tus_completed then (st, .error .uploadNotReady)
    else if u.finalized then (st, .error .alreadyFinalized)
    else
      match u.tus_file_path with
      | none => (st, .error .uploadNotReady)
      | some p =>
        ({ temps := setFinalized st.temps token newVideoId,
           videos := st.videos ++ [entryFromTemp now newVideoId newPermlink u p] },
         .ok newVideoId)

/-! ### Concrete sample data (used by witnesses and the counterexample) -/

/-- The service configuration with the source's default env values. -/
def svc0 : IPFSService :=
  { supernodeUrl := "http://65.21.201.94:5002",
    fallbackUrl := "http://localhost:5001",
    fallbackGateway := "https://ipfs.yourdomain.com",
    primaryGateway := "https://ipfs.3speak.tv" }

/-- A freshly prepared video: no storage identifier, no job reference. -/
def vidFresh : Video :=
  { vid := "v1", owner := "alice", permlink := "abcd1234",
    filename := none, job_id := none, status := "uploaded",
    local_filename := some "/tmp/uploads/f1",
    fallback_mode := false, cleanup_eligible := false, size := 5000,
    upload_service_id := "simplified-upload-service", created := 0 }

/-- A fully processed video: ipfs filename and job reference both set. -/
def vidDone : Video :=
  { vidFresh with
    vid := "v0", filename := some "ipfs://QmA",
    job_id := some "job-0", status := "encoding_ipfs" }

/-- An existing encoding job for alice/abcd1234. -/
def job0 : EncodingJob :=
  { id := "job-0", status := "queued", video_owner := "alice",
    video_permlink := "abcd1234", storage_key := "alice/abcd1234/video",
    input_uri := "https://ipfs.3speak.tv/ipfs/QmA", input_size := 5000 }

/-- Oracle: both IPFS nodes would succeed with hash QmB; fresh job id job-1. -/
def envOk : TusEnv :=
  { primaryRes := .ok "QmB", fallbackRes := .ok "QmB", freshJobId := "job-1" }

/-- Oracle: supernode times out, local daemon refuses. -/
def envFail : TusEnv :=
  { primaryRes := .error "timeout", fallbackRes := .error "refused",
    freshJobId := "job-1" }

/-- State holding the already-processed video and its job. -/
def stDone : TusState :=
  { videos := [vidDone], jobs := [job0], files := ["/tmp/uploads/f1"] }

/-- State holding a fresh video and no jobs. -/
def stFresh : TusState :=
  { videos := [vidFresh], jobs := [], files := ["/tmp/uploads/f1"] }

/-- State holding a fresh video but a pre-existing job for its key. -/
def stFreshJob : TusState :=
  { videos := [vidFresh], jobs := [job0], files := ["/tmp/uploads/f1"] }

/-- The upload result produced from `envOk` via the primary node. -/
def resOk : UploadResult :=
  { hash := "QmB", fallbackMode := false,
    gatewayUrl := "https://ipfs.3speak.tv/ipfs/QmB" }

/-- A fallback-stored video that is NOT yet published (status as committed by
the tus-callback pipeline after a fallback upload). -/
def vidFallbackUnpublished : Video :=
  { vid := "v2", owner := "bob", permlink := "zzzz9999",
    filename := some "ipfs://QmX", job_id := some "job-2",
    status := "encoding_ipfs", local_filename := none,
    fallback_mode := true, cleanup_eligible := false, size := 7000,
    upload_service_id := "simplified-upload-service", created := 0 }

/-- `vidFallbackUnpublished` after `cleanupVideo` flips its flag. -/
def vidFallbackUnpublishedCleaned : Video :=
  { vidFallbackUnpublished with cleanup_eligible := true }

/-- A pending transfer whose tus upload has completed. -/
def tempReady : TempUpload :=
  { upload_id := "alice_1733049600000_tok1", owner := "alice",
    originalFilename := "clip.mp4", size := 5000000, duration := 12,
    tus_completed := true, tus_file_path := some "/tmp/uploads/t1",
    video_id := none, finalized := false, created := 100, expires := 3700 }

/-- A pending transfer whose tus upload has not completed yet. -/
def tempNotReady : TempUpload :=
  { tempReady with
    upload_id := "alice_1733049600000_tok2",
    tus_completed := false, tus_file_path := none }

/-- Finalizer store holding both sample transfers and no videos. -/
def stFin : FinalizeState :=
  { temps := [tempReady, tempNotReady], videos := [] }

/-- A fallback-stored, published, already-cleaned video (flag true). -/
def vidAlreadyCleaned : Video :=
  { vidFallbackUnpublished with
    vid := "v3", permlink := "yyyy8888", status := "published",
    cleanup_eligible := true }

/-! ### Helper lemmas -/

/-- Membership in the eviction-sweep selection forces the query conditions. -/
theorem mem_findEligibleVideos {sid : String} {cutoff : Nat} {videos : List Video}
    {v : Video} (h : v ∈ findEligibleVideos sid cutoff videos) :
    v ∈ videos ∧ v.fallback_mode = true ∧ v.status = "published" ∧
      v.cleanup_eligible = false := by
  rw [findEligibleVideos, List.mem_filter] at h
  obtain ⟨hmem, hcond⟩ := h
  simp only [Bool.and_eq_true, Bool.not_eq_true', beq_iff_eq, decide_eq_true_eq] at hcond
  exact ⟨hmem, hcond.1.1.1.2, hcond.1.1.2, hcond.2⟩

/-- `cleanupVideo` saves at most the input video with its eligibility flag
set. -/
theorem cleanupVideo_updated_eq {video : Video} {b : Bool} {v' : Video}
    (h : (cleanupVideo video b).updated = some v') :
    v' = { video with cleanup_eligible := true } := by
  unfold cleanupVideo at h
  cases hf : video.filename with
  | none => rw [hf] at h; simp at h
  | some f =>
    rw [hf] at h
    by_cases hs : startsWithIpfs f
    · simp only [hs, Bool.not_true, Bool.false_eq_true, if_false] at h
      cases b with
      | true => simp at h; exact h.symm
      | false => simp at h
    · simp only [Bool.not_eq_true'] at hs
      simp [hs] at h

/-- With `unpinOk = false` (`unpinFromFallback` returned `false`),
`cleanupVideo` writes nothing and reports failure. -/
theorem cleanupVideo_unpin_failed (video : Video) :
    (cleanupVideo video false).updated = none ∧
      (cleanupVideo video false).success = false := by
  unfold cleanupVideo
  cases video.filename with
  | none => simp
  | some f =>
    by_cases hs : startsWithIpfs f
    · simp [hs]
    · simp only [Bool.not_eq_true'] at hs
      simp [hs]

/-- Saving a document that satisfies the eviction invariant preserves the
store-wide invariant. -/
theorem evictionInv_saveVideoById {videos : List Video} {v' : Video}
    (hinv : EvictionInv videos)
    (hv' : v'.cleanup_eligible = true → v'.fallback_mode = true ∧ v'.status = "published") :
    EvictionInv (saveVideoById videos v') := by
  intro w hw helig
  rw [saveVideoById, List.mem_map] at hw
  obtain ⟨w0, hw0, hweq⟩ := hw
  by_cases hid : (w0.vid == v'.vid) = true
  · rw [hid, if_pos rfl] at hweq
    exact hweq ▸ hv' (hweq ▸ helig)
  · rw [Bool.not_eq_true] at hid
    rw [hid] at hweq
    simp only [Bool.false_eq_true, if_false] at hweq
    exact hweq ▸ hinv w0 hw0 (hweq ▸ helig)

/-- One sweep iteration over a fallback+published video preserves the
eviction invariant. -/
theorem cleanupStep_inv {unpinOk : Video → Bool} {acc : CleanupSummary} {v : Video}
    (hv : v.fallback_mode = true ∧ v.status = "published")
    (hinv : EvictionInv acc.videos) :
    EvictionInv (cleanupStep unpinOk acc v).videos := by
  have hmatch : (cleanupStep unpinOk acc v).videos =
      match (cleanupVideo v (unpinOk v)).updated with
      | some v' => saveVideoById acc.videos v'
      | none => acc.videos := rfl
  rw [hmatch]
  cases hu : (cleanupVideo v (unpinOk v)).updated with
  | none => exact hinv
  | some v' =>
    have hv' := cleanupVideo_updated_eq hu
    subst hv'
    exact evictionInv_saveVideoById hinv (fun _ => hv)

/-- The sweep loop preserves the eviction invariant when every processed video
is fallback+published. -/
theorem cleanupFold_inv {unpinOk : Video → Bool} :
    ∀ (l : List Video) (acc : CleanupSummary),
      (∀ v ∈ l, v.fallback_mode = true ∧ v.status = "published") →
      EvictionInv acc.videos →
      EvictionInv (l.foldl (cleanupStep unpinOk) acc).videos := by
  intro l
  induction l with
  | nil => intro acc _ hinv; simpa using hinv
  | cons a rest ih =>
    intro acc hl hinv
    rw [List.foldl_cons]
    exact ih _ (fun v hv => hl v (List.mem_cons_of_mem a hv))
      (cleanupStep_inv (hl a (List.mem_cons_self a rest)) hinv)

/-- Every video the sweep loop makes an unpin call for comes from the
accumulator's trace or from the processed list. -/
theorem cleanupFold_unpinCalls {unpinOk : Video → Bool} :
    ∀ (l : List Video) (acc : CleanupSummary) (v : Video),
      v ∈ (l.foldl (cleanupStep unpinOk) acc).unpinCalls →
      v ∈ acc.unpinCalls ∨ v ∈ l := by
  intro l
  induction l with
  | nil => intro acc v h; exact Or.inl (by simpa using h)
  | cons a rest ih =>
    intro acc v h
    rw [List.foldl_cons] at h
    rcases ih _ v h with hacc | hrest
    · have hm : (cleanupStep unpinOk acc a).unpinCalls =
          acc.unpinCalls ++
            (if (cleanupVideo a (unpinOk a)).unpinCalled then [a] else []) := rfl
      rw [hm, List.mem_append] at hacc
      rcases hacc with h1 | h2
      · exact Or.inl h1
      · have hva : v = a := by
          by_cases hc : (cleanupVideo a (unpinOk a)).unpinCalled = true
          · simpa [hc] using h2
          · simp [hc] at h2
        exact Or.inr (hva ▸ List.mem_cons_self a rest)
    · exact Or.inr (List.mem_cons_of_mem a hrest)

/-- Updating a found temp-upload document via `setFinalized` is visible to the
next `findOne` on the same token. -/
theorem findTempUpload_setFinalized :
    ∀ (temps : List TempUpload) (token videoId : String) (u : TempUpload),
      findTempUpload temps token = some u →
      findTempUpload (setFinalized temps token videoId) token =
        some { u with finalized := true, video_id := some videoId } := by
  intro temps
  induction temps with
  | nil => intro token videoId u h; simp [findTempUpload] at h
  | cons a rest ih =>
    intro token videoId u h
    by_cases ha : (a.upload_id == token) = true
    · have hau : a = u := by
        simp only [findTempUpload, List.find?_cons, ha] at h
        exact Option.some.inj h
      subst hau
      have hs : setFinalized (a :: rest) token videoId =
          { a with finalized := true, video_id := some videoId } :: rest := by
        simp [setFinalized, ha]
      rw [hs, findTempUpload]
      simp only [List.find?_cons, ha]
    · rw [Bool.not_eq_true] at ha
      simp only [findTempUpload, List.find?_cons, ha] at h
      have hs : setFinalized (a :: rest) token videoId =
          a :: setFinalized rest token videoId := by
        simp [setFinalized, ha]
      rw [hs, findTempUpload]
      simp only [List.find?_cons, ha]
      exact ih token videoId u h

/-! ### Claim theorems -/

/-- C1: re-invoking the completion processor (tus-callback) on an Entry that
already has an `ipfs://` storage identifier and a job reference deletes the
local file and returns success immediately: for every upload-oracle
environment the response is the short-circuit success, the video and job
stores are untouched (so no upload happens, no job is created, and every
field of the Entry is unchanged), and only the temp file is removed. -/
theorem C1_short_circuit_idempotent (svc : IPFSService) (env : TusEnv)
    (st : TusState) (video_id owner permlink filePath : String) (video : Video)
    (hv : findVideoById st.videos video_id = some video)
    (hfile : st.files.contains filePath = true)
    (hguard : alreadyProcessed video = true) :
    tusCallback svc env st video_id owner permlink filePath =
      (.alreadyProcessed, { st with files := st.files.erase filePath }) := by
  have hmem : filePath ∈ st.files := by simpa using hfile
  simp [tusCallback, hv, hfile, hmem, hguard]

/-- Witness for C1 at a concrete processed Entry, with an environment in
which both storage nodes would fail — showing the result does not consult
the storage engine. -/
theorem C1_short_circuit_idempotent_witness :
    tusCallback svc0 envFail stDone "v0" "alice" "abcd1234" "/tmp/uploads/f1" =
      (.alreadyProcessed,
       { stDone with files := stDone.files.erase "/tmp/uploads/f1" }) :=
  C1_short_circuit_idempotent svc0 envFail stDone "v0" "alice" "abcd1234"
    "/tmp/uploads/f1" vidDone (by decide) (by decide) (by decide)

/-- C5: whenever the storage upload engine returns a result, its origin flag
is primary (`fallbackMode = false`) exactly when the first (primary-node)
attempt succeeded, and the returned gateway URL is the origin-specific
gateway base plus `/ipfs/` plus the content id (i.e. `getGatewayUrl`). -/
theorem C5_origin_flag_and_gateway (svc : IPFSService) (fileExists : Bool)
    (filePath : String) (primaryRes fallbackRes : Except String String)
    (res : UploadResult)
    (h : (uploadFile svc fileExists filePath primaryRes fallbackRes).result = .ok res) :
    (res.fallbackMode = false ↔ ∃ s, primaryRes = .ok s) ∧
    res.gatewayUrl = getGatewayUrl svc res.hash res.fallbackMode := by
  cases fileExists with
  | false => simp [uploadFile] at h
  | true =>
    cases primaryRes with
    | ok s =>
      have hres : res = (⟨s, false, svc.primaryGateway ++ "/ipfs/" ++ s⟩ : UploadResult) := by
        simpa [uploadFile] using h.symm
      subst hres
      exact ⟨⟨fun _ => ⟨s, rfl⟩, fun _ => rfl⟩, by simp [getGatewayUrl]⟩
    | error p =>
      cases fallbackRes with
      | ok s =>
        have hres : res = (⟨s, true, svc.fallbackGateway ++ "/ipfs/" ++ s⟩ : UploadResult) := by
          simpa [uploadFile] using h.symm
        subst hres
        refine ⟨⟨fun hc => by simp at hc, fun hc => ?_⟩, by simp [getGatewayUrl]⟩
        obtain ⟨s', hs'⟩ := hc
        cases hs'
      | error f => simp [uploadFile] at h

/-- Witness for C5 at a concrete successful primary upload. -/
theorem C5_origin_flag_and_gateway_witness :
    (resOk.fallbackMode = false ↔ ∃ s, (Except.ok "QmB" : Except String String) = .ok s) ∧
    resOk.gatewayUrl = getGatewayUrl svc0 resOk.hash resOk.fallbackMode :=
  C5_origin_flag_and_gateway svc0 true "/tmp/uploads/f1" (.ok "QmB") (.ok "QmB")
    resOk (by rfl)

/-- C3: when the primary node attempt fails, the secondary node is attempted
exactly once whatever its outcome; if the secondary also fails the engine
raises the combined error carrying both failure causes, and in that case the
tus-callback handler returns a 500 with that message and the state untouched:
the Entry store is unchanged (no content identifier is ever set) and the
local file is not deleted. -/
theorem C3_failover_once_and_failure_frame (svc : IPFSService) (env : TusEnv)
    (st : TusState) (video_id owner permlink filePath : String) (video : Video)
    (p f : String)
    (hv : findVideoById st.videos video_id = some video)
    (hfile : st.files.contains filePath = true)
    (hguard : alreadyProcessed video = false)
    (hp : env.primaryRes = .error p)
    (hf : env.fallbackRes = .error f) :
    (∀ fb : Except String String,
        (uploadFile svc true filePath (.error p) fb).fallbackAttempts = 1) ∧
    (uploadFile svc true filePath (.error p) (.error f)).result =
      .error ("Both uploads failed. Supernode: " ++ p ++ ", Fallback: " ++ f) ∧
    tusCallback svc env st video_id owner permlink filePath =
      (.serverError ("Both uploads failed. Supernode: " ++ p ++ ", Fallback: " ++ f),
       st) := by
  have hmem : filePath ∈ st.files := by simpa using hfile
  refine ⟨fun fb => ?_, ?_, ?_⟩
  · cases fb <;> simp [uploadFile]
  · simp [uploadFile]
  · simp [tusCallback, hv, hfile, hmem, hguard, hp, hf, uploadFile]

/-- Witness for C3 at a concrete fresh Entry with both nodes failing. -/
theorem C3_failover_once_and_failure_frame_witness :
    (∀ fb : Except String String,
        (uploadFile svc0 true "/tmp/uploads/f1" (.error "timeout") fb).fallbackAttempts = 1) ∧
    (uploadFile svc0 true "/tmp/uploads/f1" (.error "timeout") (.error "refused")).result =
      .error ("Both uploads failed. Supernode: " ++ "timeout" ++ ", Fallback: " ++ "refused") ∧
    tusCallback svc0 envFail stFresh "v1" "alice" "abcd1234" "/tmp/uploads/f1" =
      (.serverError ("Both uploads failed. Supernode: " ++ "timeout" ++ ", Fallback: " ++ "refused"),
       stFresh) :=
  C3_failover_once_and_failure_frame svc0 envFail stFresh "v1" "alice" "abcd1234"
    "/tmp/uploads/f1" vidFresh "timeout" "refused"
    (by decide) (by decide) (by decide) rfl rfl

/-- C2: after a successful storage upload the handler queries the jobs store
for an existing job keyed by (owner, permlink) before dispatching.  If one is
found its id is attached to the Entry (respecting the never-overwrite rule)
and the jobs store is unchanged — no new job.  Only when none is found is a
new ProcessingJob created, with status `queued` and input equal to the
storage gateway URL plus the byte size. -/
theorem C2_predispatch_existence_check (svc : IPFSService) (env : TusEnv)
    (st : TusState) (video_id owner permlink filePath : String) (video : Video)
    (res : UploadResult)
    (hv : findVideoById st.videos video_id = some video)
    (hfile : st.files.contains filePath = true)
    (hguard : alreadyProcessed video = false)
    (hup : (uploadFile svc true filePath env.primaryRes env.fallbackRes).result = .ok res) :
    (∀ j, findJobFor st.jobs owner permlink = some j →
      tusCallback svc env st video_id owner permlink filePath =
        (.jobExists j.id,
         { st with
           videos := saveVideoById st.videos
             { video with
               job_id := if video.job_id.isNone then some j.id else video.job_id,
               filename := if video.filename.isNone
                           then some ("ipfs://" ++ res.hash) else video.filename },
           files := st.files.erase filePath })) ∧
    (findJobFor st.jobs owner permlink = none →
      (tusCallback svc env st video_id owner permlink filePath).2.jobs =
        st.jobs ++ [createEncodingJob video env.freshJobId res.hash video.size res.gatewayUrl] ∧
      (createEncodingJob video env.freshJobId res.hash video.size res.gatewayUrl).status
        = "queued" ∧
      (createEncodingJob video env.freshJobId res.hash video.size res.gatewayUrl).input_uri
        = res.gatewayUrl ∧
      (createEncodingJob video env.freshJobId res.hash video.size res.gatewayUrl).input_size
        = video.size) := by
  have hmem : filePath ∈ st.files := by simpa using hfile
  constructor
  · intro j hj
    simp [tusCallback, hv, hfile, hmem, hguard, hup, hj]
  · intro hj
    refine ⟨?_, rfl, rfl, rfl⟩
    simp [tusCallback, hv, hfile, hmem, hguard, hup, hj]

/-- Witness for C2: the existing-job branch at `stFreshJob` and the dispatch
branch at `stFresh`, both with a concrete successful primary upload. -/
theorem C2_predispatch_existence_check_witness :
    tusCallback svc0 envOk stFreshJob "v1" "alice" "abcd1234" "/tmp/uploads/f1" =
      (.jobExists "job-0",
       { stFreshJob with
         videos := saveVideoById stFreshJob.videos
           { vidFresh with
             job_id := if vidFresh.job_id.isNone then some "job-0" else vidFresh.job_id,
             filename := if vidFresh.filename.isNone
                         then some ("ipfs://" ++ resOk.hash) else vidFresh.filename },
         files := stFreshJob.files.erase "/tmp/uploads/f1" }) ∧
    (tusCallback svc0 envOk stFresh "v1" "alice" "abcd1234" "/tmp/uploads/f1").2.jobs =
      stFresh.jobs ++ [createEncodingJob vidFresh "job-1" resOk.hash vidFresh.size resOk.gatewayUrl] := by
  constructor
  · exact (C2_predispatch_existence_check svc0 envOk stFreshJob "v1" "alice" "abcd1234"
      "/tmp/uploads/f1" vidFresh resOk (by decide) (by decide) (by decide) (by rfl)).1
      job0 (by decide)
  · exact ((C2_predispatch_existence_check svc0 envOk stFresh "v1" "alice" "abcd1234"
      "/tmp/uploads/f1" vidFresh resOk (by decide) (by decide) (by decide) (by rfl)).2
      (by decide)).1

/-- C10: on the existing-job branch the handler mutates only the Entry's
job-reference and storage-identifier fields, each only when currently unset;
its status, origin flag, eviction-eligibility flag and local-file reference
are untouched (in particular no transition to the dispatched status), and the
jobs store is unchanged. -/
theorem C10_existing_job_frame (svc : IPFSService) (env : TusEnv)
    (st : TusState) (video_id owner permlink filePath : String) (video : Video)
    (res : UploadResult) (j : EncodingJob)
    (hv : findVideoById st.videos video_id = some video)
    (hfile : st.files.contains filePath = true)
    (hguard : alreadyProcessed video = false)
    (hup : (uploadFile svc true filePath env.primaryRes env.fallbackRes).result = .ok res)
    (hj : findJobFor st.jobs owner permlink = some j) :
    tusCallback svc env st video_id owner permlink filePath =
      (.jobExists j.id,
       { st with
         videos := saveVideoById st.videos
           { video with
             job_id := if video.job_id.isNone then some j.id else video.job_id,
             filename := if video.filename.isNone
                         then some ("ipfs://" ++ res.hash) else video.filename },
         files := st.files.erase filePath }) ∧
    ({ video with
       job_id := if video.job_id.isNone then some j.id else video.job_id,
       filename := if video.filename.isNone
                   then some ("ipfs://" ++ res.hash) else video.filename } : Video).status
      = video.status ∧
    ({ video with
       job_id := if video.job_id.isNone then some j.id else video.job_id,
       filename := if video.filename.isNone
                   then some ("ipfs://" ++ res.hash) else video.filename } : Video).fallback_mode
      = video.fallback_mode ∧
    ({ video with
       job_id := if video.job_id.isNone then some j.id else video.job_id,
       filename := if video.filename.isNone
                   then some ("ipfs://" ++ res.hash) else video.filename } : Video).cleanup_eligible
      = video.cleanup_eligible ∧
    ({ video with
       job_id := if video.job_id.isNone then some j.id else video.job_id,
       filename := if video.filename.isNone
                   then some ("ipfs://" ++ res.hash) else video.filename } : Video).local_filename
      = video.local_filename ∧
    (video.job_id.isSome = true →
      ({ video with
         job_id := if video.job_id.isNone then some j.id else video.job_id,
         filename := if video.filename.isNone
                     then some ("ipfs://" ++ res.hash) else video.filename } : Video).job_id
        = video.job_id) ∧
    (video.filename.isSome = true →
      ({ video with
         job_id := if video.job_id.isNone then some j.id else video.job_id,
         filename := if video.filename.isNone
                     then some ("ipfs://" ++ res.hash) else video.filename } : Video).filename
        = video.filename) := by
  have hmem : filePath ∈ st.files := by simpa using hfile
  refine ⟨by simp [tusCallback, hv, hfile, hmem, hguard, hup, hj], rfl, rfl, rfl, rfl, ?_, ?_⟩
  · intro hs
    simp only
    rw [if_neg]
    simp [Option.isNone_iff_eq_none]
    intro hnone
    rw [hnone] at hs
    simp at hs
  · intro hs
    simp only
    rw [if_neg]
    simp [Option.isNone_iff_eq_none]
    intro hnone
    rw [hnone] at hs
    simp at hs

/-- Witness for C10 at a concrete state whose Entry has neither field set and
whose job store already holds a job for the key. -/
theorem C10_existing_job_frame_witness :
    tusCallback svc0 envOk stFreshJob "v1" "alice" "abcd1234" "/tmp/uploads/f1" =
      (.jobExists "job-0",
       { stFreshJob with
         videos := saveVideoById stFreshJob.videos
           { vidFresh with
             job_id := if vidFresh.job_id.isNone then some "job-0" else vidFresh.job_id,
             filename := if vidFresh.filename.isNone
                         then some ("ipfs://" ++ resOk.hash) else vidFresh.filename },
         files := stFreshJob.files.erase "/tmp/uploads/f1" }) := by
  exact (C10_existing_job_frame svc0 envOk stFreshJob "v1" "alice" "abcd1234"
    "/tmp/uploads/f1" vidFresh resOk job0 (by decide) (by decide) (by decide)
    (by rfl) (by decide)).1

/-- C4: on the dispatch path the commit sets the Entry's storage identifier
to `ipfs://` plus the content id, the origin flag to the upload's fallback
mode, the job reference to the fresh job id, transitions the status to the
dispatched status (`encoding_ipfs`), clears the local-file reference and
resets the eligibility flag; and the local temp file is deleted on every
successful path — commit, short-circuit and existing-job alike. -/
theorem C4_commit_and_file_deletion (svc : IPFSService) (env : TusEnv)
    (st : TusState) (video_id owner permlink filePath : String) (video : Video)
    (hv : findVideoById st.videos video_id = some video)
    (hfile : st.files.contains filePath = true)
    (hnodup : st.files.Nodup) :
    (alreadyProcessed video = true →
      (tusCallback svc env st video_id owner permlink filePath).2.files =
        st.files.erase filePath ∧
      filePath ∉ (tusCallback svc env st video_id owner permlink filePath).2.files) ∧
    (∀ res : UploadResult, alreadyProcessed video = false →
      (uploadFile svc true filePath env.primaryRes env.fallbackRes).result = .ok res →
      (findJobFor st.jobs owner permlink = none →
        tusCallback svc env st video_id owner permlink filePath =
          (.ok,
           { videos := saveVideoById st.videos
               { video with
                 filename := some ("ipfs://" ++ res.hash),
                 status := "encoding_ipfs",
                 job_id := some env.freshJobId,
                 local_filename := none,
                 fallback_mode := res.fallbackMode,
                 cleanup_eligible := false },
             jobs := st.jobs ++
               [createEncodingJob video env.freshJobId res.hash video.size res.gatewayUrl],
             files := st.files.erase filePath }) ∧
        filePath ∉ st.files.erase filePath) ∧
      (∀ j, findJobFor st.jobs owner permlink = some j →
        filePath ∉ (tusCallback svc env st video_id owner permlink filePath).2.files)) := by
  have hmem : filePath ∈ st.files := by simpa using hfile
  have herase : filePath ∉ st.files.erase filePath := hnodup.not_mem_erase
  constructor
  · intro hguard
    have hcall : tusCallback svc env st video_id owner permlink filePath =
        (.alreadyProcessed, { st with files := st.files.erase filePath }) := by
      simp [tusCallback, hv, hfile, hmem, hguard]
    rw [hcall]
    exact ⟨rfl, herase⟩
  · intro res hguard hup
    constructor
    · intro hj
      refine ⟨?_, herase⟩
      simp [tusCallback, hv, hfile, hmem, hguard, hup, hj]
    · intro j hj
      have hcall : tusCallback svc env st video_id owner permlink filePath =
          (.jobExists j.id,
           { st with
             videos := saveVideoById st.videos
               { video with
                 job_id := if video.job_id.isNone then some j.id else video.job_id,
                 filename := if video.filename.isNone
                             then some ("ipfs://" ++ res.hash) else video.filename },
             files := st.files.erase filePath }) := by
        simp [tusCallback, hv, hfile, hmem, hguard, hup, hj]
      rw [hcall]
      exact herase

/-- Witness for C4: the commit path at the fresh state and the short-circuit
path at the processed state, at concrete inputs. -/
theorem C4_commit_and_file_deletion_witness :
    (tusCallback svc0 envOk stFresh "v1" "alice" "abcd1234" "/tmp/uploads/f1" =
      (.ok,
       { videos := saveVideoById stFresh.videos
           { vidFresh with
             filename := some ("ipfs://" ++ resOk.hash),
             status := "encoding_ipfs",
             job_id := some "job-1",
             local_filename := none,
             fallback_mode := resOk.fallbackMode,
             cleanup_eligible := false },
         jobs := stFresh.jobs ++
           [createEncodingJob vidFresh "job-1" resOk.hash vidFresh.size resOk.gatewayUrl],
         files := stFresh.files.erase "/tmp/uploads/f1" }) ∧
      "/tmp/uploads/f1" ∉ stFresh.files.erase "/tmp/uploads/f1") ∧
    "/tmp/uploads/f1" ∉
      (tusCallback svc0 envFail stDone "v0" "alice" "abcd1234" "/tmp/uploads/f1").2.files := by
  constructor
  · exact ((C4_commit_and_file_deletion svc0 envOk stFresh "v1" "alice" "abcd1234"
      "/tmp/uploads/f1" vidFresh (by decide) (by decide) (by decide)).2
      resOk (by decide) (by rfl)).1 (by decide)
  · exact ((C4_commit_and_file_deletion svc0 envFail stDone "v0" "alice" "abcd1234"
      "/tmp/uploads/f1" vidDone (by decide) (by decide) (by decide)).1 (by decide)).2

/-- C6: finalize on a pending transfer whose tus upload has not completed
fails with UploadNotReady and leaves both stores unmodified; and after a
successful finalize, a second finalize on the same token fails with
AlreadyFinalized and leaves the stores of the first call unmodified — in
particular no second Entry is appended. -/
theorem C6_finalize_not_ready_and_twice (now : Nat) (newVideoId newPermlink : String)
    (st : FinalizeState) (token : String) (u : TempUpload) (p : String)
    (hfind : findTempUpload st.temps token = some u)
    (hexp : u.isExpired now = false) :
    (u.tus_completed = false →
      finalizeUpload now newVideoId newPermlink st token = (st, .error .uploadNotReady)) ∧
    (u.tus_completed = true → u.finalized = false → u.tus_file_path = some p →
      finalizeUpload now newVideoId newPermlink st token =
        ({ temps := setFinalized st.temps token newVideoId,
           videos := st.videos ++ [entryFromTemp now newVideoId newPermlink u p] },
         .ok newVideoId) ∧
      finalizeUpload now newVideoId newPermlink
          { temps := setFinalized st.temps token newVideoId,
            videos := st.videos ++ [entryFromTemp now newVideoId newPermlink u p] }
          token =
        ({ temps := setFinalized st.temps token newVideoId,
           videos := st.videos ++ [entryFromTemp now newVideoId newPermlink u p] },
         .error .alreadyFinalized)) := by
  constructor
  · intro hc
    simp [finalizeUpload, hfind, hexp, hc]
  · intro hc hfin hpath
    constructor
    · simp [finalizeUpload, hfind, hexp, hc, hfin, hpath]
    · have hfind2 := findTempUpload_setFinalized st.temps token newVideoId u hfind
      have hexp2 : ¬ (u.expires < now) := by
        simpa [TempUpload.isExpired] using hexp
      simp [finalizeUpload, hfind2, TempUpload.isExpired, hexp2, hc]

/-- Witness for C6: the not-ready transfer rejects with UploadNotReady; the
ready transfer finalizes once and then rejects with AlreadyFinalized. -/
theorem C6_finalize_not_ready_and_twice_witness :
    finalizeUpload 200 "vidX" "permXXXX" stFin "alice_1733049600000_tok2" =
      (stFin, .error .uploadNotReady) ∧
    finalizeUpload 200 "vidX" "permXXXX" stFin "alice_1733049600000_tok1" =
      ({ temps := setFinalized stFin.temps "alice_1733049600000_tok1" "vidX",
         videos := stFin.videos ++
           [entryFromTemp 200 "vidX" "permXXXX" tempReady "/tmp/uploads/t1"] },
       .ok "vidX") ∧
    finalizeUpload 200 "vidX" "permXXXX"
        { temps := setFinalized stFin.temps "alice_1733049600000_tok1" "vidX",
          videos := stFin.videos ++
            [entryFromTemp 200 "vidX" "permXXXX" tempReady "/tmp/uploads/t1"] }
        "alice_1733049600000_tok1" =
      ({ temps := setFinalized stFin.temps "alice_1733049600000_tok1" "vidX",
         videos := stFin.videos ++
           [entryFromTemp 200 "vidX" "permXXXX" tempReady "/tmp/uploads/t1"] },
       .error .alreadyFinalized) := by
  refine ⟨?_, ?_, ?_⟩
  · exact (C6_finalize_not_ready_and_twice 200 "vidX" "permXXXX" stFin
      "alice_1733049600000_tok2" tempNotReady "" (by decide) (by decide)).1 (by decide)
  · exact ((C6_finalize_not_ready_and_twice 200 "vidX" "permXXXX" stFin
      "alice_1733049600000_tok1" tempReady "/tmp/uploads/t1" (by decide) (by decide)).2
      (by decide) (by decide) (by decide)).1
  · exact ((C6_finalize_not_ready_and_twice 200 "vidX" "permXXXX" stFin
      "alice_1733049600000_tok1" tempReady "/tmp/uploads/t1" (by decide) (by decide)).2
      (by decide) (by decide) (by decide)).2

/-- C7 counterexample: forced per-video cleanup flips the eligibility flag on
a fallback-stored Entry that is NOT published (`encoding_ipfs`), so the
operation does not preserve the invariant "eligible implies origin=fallback
and state=published". -/
theorem C7_forced_cleanup_breaks_invariant :
    forceCleanupVideo "simplified-upload-service" [vidFallbackUnpublished] "v2" true =
      .ok { success := true, updated := some vidFallbackUnpublishedCleaned,
            ipfsHash := some "QmX", error := none, unpinCalled := true } ∧
    vidFallbackUnpublishedCleaned.cleanup_eligible = true ∧
    vidFallbackUnpublishedCleaned.fallback_mode = true ∧
    ¬ vidFallbackUnpublishedCleaned.status = "published" := by
  refine ⟨by rfl, rfl, rfl, by decide⟩

/-- C7 (amended): the scheduled sweep preserves the invariant
"eligible implies origin=fallback and state=published" (its selection filters
on both fields); the forced per-video cleanup guarantees only
origin=fallback — it checks `fallback_mode` but not the published status. -/
theorem C7_eviction_invariant_amended :
    (∀ (sid : String) (cutoff : Nat) (videos : List Video) (unpinOk : Video → Bool),
      EvictionInv videos →
      EvictionInv (performCleanup sid cutoff videos unpinOk).videos) ∧
    (∀ (sid : String) (videos : List Video) (videoId : String) (b : Bool)
        (r : CleanupResult) (v' : Video),
      forceCleanupVideo sid videos videoId b = .ok r →
      r.updated = some v' →
      v'.fallback_mode = true) := by
  constructor
  · intro sid cutoff videos unpinOk hinv
    unfold performCleanup
    refine cleanupFold_inv _ _ (fun v hv => ?_) hinv
    have h := mem_findEligibleVideos hv
    exact ⟨h.2.1, h.2.2.1⟩
  · intro sid videos videoId b r v' h hup
    unfold forceCleanupVideo at h
    split at h
    · simp at h
    · split at h
      · simp at h
      · split at h
        · simp at h
        · rename_i video heq hsvc hfb
          have hfb' : video.fallback_mode = true := by simpa using hfb
          obtain rfl : cleanupVideo video b = r := by simpa using h
          have hv' := cleanupVideo_updated_eq hup
          subst hv'
          exact hfb'

/-- Witness for C7 (amended): the sweep over a singleton invariant-satisfying
store, and a concrete successful forced cleanup. -/
theorem C7_eviction_invariant_amended_witness :
    EvictionInv (performCleanup "simplified-upload-service" 100
      [vidAlreadyCleaned] (fun _ => true)).videos ∧
    vidFallbackUnpublishedCleaned.fallback_mode = true := by
  constructor
  · refine (C7_eviction_invariant_amended).1 "simplified-upload-service" 100
      [vidAlreadyCleaned] (fun _ => true) ?_
    intro v hv helig
    have : v = vidAlreadyCleaned := by simpa using hv
    subst this
    exact ⟨rfl, rfl⟩
  · exact (C7_eviction_invariant_amended).2 "simplified-upload-service"
      [vidFallbackUnpublished] "v2" true
      { success := true, updated := some vidFallbackUnpublishedCleaned,
        ipfsHash := some "QmX", error := none, unpinCalled := true }
      vidFallbackUnpublishedCleaned (by rfl) (by rfl)

/-- C8: the eligibility flag goes false-to-true at most once: the sweep's
selection excludes entries whose flag is already true, the sweep therefore
makes no unpin storage call for such an entry, and when the unpin fails
nothing is written so the flag stays false. -/
theorem C8_eligibility_flag_monotone :
    (∀ (sid : String) (cutoff : Nat) (videos : List Video) (v : Video),
      v.cleanup_eligible = true → v ∉ findEligibleVideos sid cutoff videos) ∧
    (∀ (sid : String) (cutoff : Nat) (videos : List Video)
        (unpinOk : Video → Bool) (v : Video),
      v.cleanup_eligible = true →
      v ∉ (performCleanup sid cutoff videos unpinOk).unpinCalls) ∧
    (∀ v : Video, (cleanupVideo v false).updated = none ∧
      (cleanupVideo v false).success = false) := by
  refine ⟨?_, ?_, cleanupVideo_unpin_failed⟩
  · intro sid cutoff videos v helig hmem
    exact absurd (mem_findEligibleVideos hmem).2.2.2 (by simp [helig])
  · intro sid cutoff videos unpinOk v helig hmem
    unfold performCleanup at hmem
    rcases cleanupFold_unpinCalls _ _ v hmem with h0 | hel
    · simp at h0
    · exact absurd (mem_findEligibleVideos hel).2.2.2 (by simp [helig])

/-- Witness for C8 at a concrete already-eligible video: it is excluded from
selection, receives no unpin call from a sweep, and an unpin failure writes
nothing. -/
theorem C8_eligibility_flag_monotone_witness :
    vidAlreadyCleaned ∉ findEligibleVideos "simplified-upload-service" 100
      [vidAlreadyCleaned] ∧
    vidAlreadyCleaned ∉ (performCleanup "simplified-upload-service" 100
      [vidAlreadyCleaned] (fun _ => true)).unpinCalls ∧
    (cleanupVideo vidAlreadyCleaned false).updated = none ∧
    (cleanupVideo vidAlreadyCleaned false).success = false :=
  ⟨(C8_eligibility_flag_monotone).1 "simplified-upload-service" 100
      [vidAlreadyCleaned] vidAlreadyCleaned rfl,
   (C8_eligibility_flag_monotone).2.1 "simplified-upload-service" 100
      [vidAlreadyCleaned] (fun _ => true) vidAlreadyCleaned rfl,
   (C8_eligibility_flag_monotone).2.2 vidAlreadyCleaned⟩

/-- C9: evaluation of the permlink generator at the failing input.
`Math.random()` can return `0.5`, whose base-36 rendering is `"0.i"`, so the
generated permlink is the 1-character token `"i"` — not a fixed 8-character
token — and the Video schema (exactly 8 characters) rejects the subsequent
save.  The schema does enforce the claim for persisted Entries: it rejects a
non-8-character permlink and a duplicate of a stored permlink, and accepts
the valid fresh one. -/
theorem C9_permlink_generator_short_token :
    generatePermlink [Char.ofNat 105] = "i" ∧
    (generatePermlink [Char.ofNat 105]).length = 1 ∧
    videoSchemaAccepts []
      { vidFresh with permlink := generatePermlink [Char.ofNat 105] } = false ∧
    videoSchemaAccepts [vidFresh] vidFresh = false ∧
    videoSchemaAccepts [] vidFresh = true := by
  refine ⟨rfl, rfl, by decide, by decide, by decide⟩

end ThreeSpeak
